import Mathlib

/-!
Verification of the tenant-isolation and seeding design of the AumOS
integration-test repository.

The embedding translates, from the source of the repository:

* the row-level-security (RLS) policy `tenant_isolation` declared in
  `conftest.py` (`db_engine` fixture):
  `USING (tenant_id = current_setting(app.current_tenant, TRUE))`
  `WITH CHECK (tenant_id = current_setting(app.current_tenant, TRUE))`
  (setting name quoted in the SQL source),
  on the table `test_tenant_table (id, tenant_id, name, created_at)`,
  with RLS enabled and forced;
* the session/transaction-local tenant context function
  `set_tenant_context(tenant_id TEXT)` of `conftest.py`, which performs
  `set_config(app.current_tenant, tenant_id, TRUE)` (transaction-local);
* the seeding layer `src/seeding/seed.py` (`seed_tenants`, `seed_users`,
  `seed_kafka_topics`, `seed_minio_buckets`, `seed_all`) and the fixture
  constants of `src/seeding/fixtures.py`.

SQL semantics captured by the embedding: `current_setting(name, TRUE)`
returns NULL when the setting is absent (modelled by `Option.none`); an
equality comparison with NULL is not true, so the policy admits no row.
A policy `USING` clause filters the rows visible to SELECT and DELETE;
a failed `WITH CHECK` on INSERT raises an error and the statement has no
effect.  Machine timestamps (`created_at DEFAULT NOW()`) are modelled as
an explicit `Nat` argument supplied to each seeding run; `ON CONFLICT DO
UPDATE` does not touch `created_at`, matching the source SQL.
-/

namespace AumOS

/-- A row of `test_tenant_table` (conftest.py): `id TEXT PRIMARY KEY`,
`tenant_id TEXT NOT NULL`, `name TEXT NOT NULL`, `created_at TIMESTAMPTZ`. -/
structure TenantRow where
  id : String
  tenant_id : String
  name : String
  created_at : Nat
deriving DecidableEq, Repr

/-- The rows currently stored in `test_tenant_table`. -/
abbrev Table := List TenantRow

/-- The session tenant context: the value read back by
`current_setting(app.current_tenant, TRUE)`.  `none` models NULL (the
setting was never set in this scope). -/
abbrev Ctx := Option String

/-- The `USING` / `WITH CHECK` expression of policy `tenant_isolation`:
`tenant_id = current_setting(app.current_tenant, TRUE)`.  A comparison
with NULL is not true, so an absent context admits no row. -/
def policyMatch (ctx : Ctx) (r : TenantRow) : Bool :=
  match ctx with
  | none => false
  | some c => r.tenant_id == c

/-- Result set of a `SELECT` with no caller-supplied WHERE clause: the RLS
`USING` filter of the RLS policy is the only filtering applied. -/
def selectVisible (ctx : Ctx) (tbl : Table) : Table :=
  tbl.filter (policyMatch ctx)

/-- The single error the RLS layer raises: a `WITH CHECK` violation on
write (surfaced to callers as a DBAPIError). -/
inductive RlsError where
  | withCheckViolation
deriving DecidableEq, Repr

/-- `INSERT INTO test_tenant_table` under RLS: the new row must satisfy the
`WITH CHECK` clause of the policy; otherwise the statement raises an error. -/
def insertRow (ctx : Ctx) (tbl : Table) (r : TenantRow) : Except RlsError Table :=
  if policyMatch ctx r then Except.ok (tbl ++ [r]) else Except.error RlsError.withCheckViolation

/-- The table state after an attempted INSERT: an erroring statement has no
effect on the table. -/
def tableAfterInsert (ctx : Ctx) (tbl : Table) (r : TenantRow) : Table :=
  match insertRow ctx tbl r with
  | Except.ok t => t
  | Except.error _ => tbl

/-- `DELETE FROM test_tenant_table WHERE id = rowId` under RLS: only rows
passing the `USING` clause of the policy are candidates for the delete
predicate.  Returns the table afterwards and the reported row count.
The operation is total: a delete matching nothing reports 0, it never
raises. -/
def deleteById (ctx : Ctx) (tbl : Table) (rowId : String) : Table × Nat :=
  let victims := tbl.filter (fun r => policyMatch ctx r && r.id == rowId)
  (tbl.filter (fun r => !(policyMatch ctx r && r.id == rowId)), victims.length)

/-! ### Session tenant context (`set_tenant_context`, conftest.py)

`set_tenant_context(tenant_id)` performs
`set_config(app.current_tenant, tenant_id, TRUE)`: the third argument
makes the assignment transaction-local, so the pre-transaction value is
restored when the transaction ends. -/

/-- Per-session value of the custom setting `app.current_tenant` between
transactions (`none` = never set). -/
structure SessionState where
  value : Option String
deriving DecidableEq, Repr

/-- Within a transaction: the value observed now, and the session value to
restore when the transaction ends (because `set_config(..., TRUE)` is
transaction-local). -/
structure TxnState where
  saved : Option String
  current : Option String
deriving DecidableEq, Repr

/-- Opening a transaction: the session value is visible and remembered. -/
def beginTxn (s : SessionState) : TxnState :=
  { saved := s.value, current := s.value }

/-- `set_tenant_context(tenant_id)`: stores exactly the given string as the
active context.  Total on all strings (empty and unknown tenant values
included) — the function never raises. -/
def set_tenant_context (t : TxnState) (tenant_id : String) : TxnState :=
  { t with current := some tenant_id }

/-- `current_setting(app.current_tenant, TRUE)` inside the transaction. -/
def current_setting (t : TxnState) : Option String :=
  t.current

/-- Transaction end: a transaction-local `set_config` does not outlive the
transaction; the saved session value is restored. -/
def endTxn (t : TxnState) : SessionState :=
  { value := t.saved }

/-! ### Fixture constants (`src/seeding/fixtures.py`) -/

def TENANT_ALPHA_ID : String := "00000000-0000-0000-0000-000000000001"

def TENANT_BETA_ID : String := "00000000-0000-0000-0000-000000000002"

def TENANT_GAMMA_ID : String := "00000000-0000-0000-0000-000000000003"

def TENANT_ALPHA_NAME : String := "Integration Test Tenant Alpha"

def TENANT_BETA_NAME : String := "Integration Test Tenant Beta"

def TENANT_GAMMA_NAME : String := "Integration Test Tenant Gamma"

def TENANT_ALPHA_SLUG : String := "test-tenant-alpha"

def TENANT_BETA_SLUG : String := "test-tenant-beta"

def TENANT_GAMMA_SLUG : String := "test-tenant-gamma"

def ALL_TENANT_IDS : List String := [TENANT_ALPHA_ID, TENANT_BETA_ID, TENANT_GAMMA_ID]

/-- One entry of the `SEED_TENANTS` fixture list (id, name, slug). -/
structure SeedTenant where
  id : String
  name : String
  slug : String
deriving DecidableEq, Repr

/-- One entry of the `SEED_USERS` fixture list. -/
structure SeedUser where
  id : String
  tenant_id : String
  username : String
  privilege_level : Nat
  email : String
deriving DecidableEq, Repr

def SEED_TENANTS : List SeedTenant := [
  { id := TENANT_ALPHA_ID, name := TENANT_ALPHA_NAME, slug := TENANT_ALPHA_SLUG },
  { id := TENANT_BETA_ID, name := TENANT_BETA_NAME, slug := TENANT_BETA_SLUG },
  { id := TENANT_GAMMA_ID, name := TENANT_GAMMA_NAME, slug := TENANT_GAMMA_SLUG }]

def SEED_USERS : List SeedUser := [
  { id := "00000000-0001-0000-0000-000000000001", tenant_id := TENANT_ALPHA_ID, username := "alpha-read", privilege_level := 1, email := "read@alpha.test" },
  { id := "00000000-0001-0000-0000-000000000002", tenant_id := TENANT_ALPHA_ID, username := "alpha-write", privilege_level := 2, email := "write@alpha.test" },
  { id := "00000000-0001-0000-0000-000000000003", tenant_id := TENANT_ALPHA_ID, username := "alpha-op", privilege_level := 3, email := "op@alpha.test" },
  { id := "00000000-0001-0000-0000-000000000004", tenant_id := TENANT_ALPHA_ID, username := "alpha-admin", privilege_level := 4, email := "admin@alpha.test" },
  { id := "00000000-0001-0000-0000-000000000005", tenant_id := TENANT_ALPHA_ID, username := "alpha-super", privilege_level := 5, email := "super@alpha.test" },
  { id := "00000000-0002-0000-0000-000000000001", tenant_id := TENANT_BETA_ID, username := "beta-read", privilege_level := 1, email := "read@beta.test" },
  { id := "00000000-0002-0000-0000-000000000002", tenant_id := TENANT_BETA_ID, username := "beta-write", privilege_level := 2, email := "write@beta.test" },
  { id := "00000000-0002-0000-0000-000000000003", tenant_id := TENANT_BETA_ID, username := "beta-op", privilege_level := 3, email := "op@beta.test" },
  { id := "00000000-0002-0000-0000-000000000004", tenant_id := TENANT_BETA_ID, username := "beta-admin", privilege_level := 4, email := "admin@beta.test" },
  { id := "00000000-0002-0000-0000-000000000005", tenant_id := TENANT_BETA_ID, username := "beta-super", privilege_level := 5, email := "super@beta.test" },
  { id := "00000000-0003-0000-0000-000000000001", tenant_id := TENANT_GAMMA_ID, username := "gamma-read", privilege_level := 1, email := "read@gamma.test" },
  { id := "00000000-0003-0000-0000-000000000002", tenant_id := TENANT_GAMMA_ID, username := "gamma-write", privilege_level := 2, email := "write@gamma.test" },
  { id := "00000000-0003-0000-0000-000000000003", tenant_id := TENANT_GAMMA_ID, username := "gamma-op", privilege_level := 3, email := "op@gamma.test" },
  { id := "00000000-0003-0000-0000-000000000004", tenant_id := TENANT_GAMMA_ID, username := "gamma-admin", privilege_level := 4, email := "admin@gamma.test" },
  { id := "00000000-0003-0000-0000-000000000005", tenant_id := TENANT_GAMMA_ID, username := "gamma-super", privilege_level := 5, email := "super@gamma.test" }]

/-- One entry of the `SEED_KAFKA_TOPICS` fixture list. -/
structure SeedTopic where
  name : String
  partitions : Nat
  replication_factor : Nat
deriving DecidableEq, Repr

def SEED_KAFKA_TOPICS : List SeedTopic := [
  { name := "aumos.audit.events", partitions := 3, replication_factor := 1 },
  { name := "aumos.governance.events", partitions := 3, replication_factor := 1 },
  { name := "aumos.model.lifecycle", partitions := 3, replication_factor := 1 },
  { name := "aumos.data.pipeline", partitions := 3, replication_factor := 1 },
  { name := "aumos.alerts", partitions := 1, replication_factor := 1 },
  { name := "aumos.audit.events.dlq", partitions := 1, replication_factor := 1 },
  { name := "aumos.governance.events.dlq", partitions := 1, replication_factor := 1 }]

/-! ### Root-conftest tenant id fixtures (`conftest.py` lines 188-203) -/

def tenant_alpha_id : String := "00000000-0000-0000-0000-000000000001"

def tenant_beta_id : String := "00000000-0000-0000-0000-000000000002"

def tenant_gamma_id : String := "00000000-0000-0000-0000-000000000003"

/-! ### Seeding layer (`src/seeding/seed.py`)

Database rows carry the `created_at TIMESTAMPTZ DEFAULT NOW()` column;
each seeding run receives the current timestamp as an explicit `now`
argument.  `ON CONFLICT (id) DO UPDATE` updates exactly the columns the
source SQL lists and leaves `created_at` (and, for users, `tenant_id`)
untouched. -/

/-- A stored row of the `tenants` table. -/
structure TenantRecord where
  id : String
  name : String
  slug : String
  created_at : Nat
deriving DecidableEq, Repr

/-- A stored row of the `test_users` table. -/
structure UserRecord where
  id : String
  tenant_id : String
  username : String
  email : String
  privilege_level : Nat
  created_at : Nat
deriving DecidableEq, Repr

/-- `INSERT INTO tenants ... ON CONFLICT (id) DO UPDATE SET name, slug`:
if a row with the id exists it is updated in place (keeping
`created_at`), otherwise a fresh row is appended. -/
def upsertTenant (now : Nat) (tbl : List TenantRecord) (t : SeedTenant) : List TenantRecord :=
  if tbl.any (fun r => r.id == t.id) then
    tbl.map (fun r => if r.id == t.id then { r with name := t.name, slug := t.slug } else r)
  else
    tbl ++ [{ id := t.id, name := t.name, slug := t.slug, created_at := now }]

/-- `INSERT INTO test_users ... ON CONFLICT (id) DO UPDATE SET username,
email, privilege_level` (the source SQL does not update `tenant_id`). -/
def upsertUser (now : Nat) (tbl : List UserRecord) (u : SeedUser) : List UserRecord :=
  if tbl.any (fun r => r.id == u.id) then
    tbl.map (fun r =>
      if r.id == u.id then
        { r with username := u.username, email := u.email, privilege_level := u.privilege_level }
      else r)
  else
    tbl ++ [{ id := u.id, tenant_id := u.tenant_id, username := u.username,
              email := u.email, privilege_level := u.privilege_level, created_at := now }]

/-- `seed_tenants`: upserts every fixture tenant and returns
`len(SEED_TENANTS)` as the count. -/
def seed_tenants (now : Nat) (tbl : List TenantRecord) : List TenantRecord × Nat :=
  (SEED_TENANTS.foldl (upsertTenant now) tbl, SEED_TENANTS.length)

/-- `seed_users`: upserts every fixture user and returns
`len(SEED_USERS)` as the count. -/
def seed_users (now : Nat) (tbl : List UserRecord) : List UserRecord × Nat :=
  (SEED_USERS.foldl (upsertUser now) tbl, SEED_USERS.length)

/-- Idempotent creation of named resources against a set of already
existing names: a name already present is skipped (the server reports
"already exists", not counted); a new name is created and counted.  Used
by both the Kafka-topic and the MinIO-bucket seeding paths. -/
def createNamed : List String → List String → List String × Nat
  | [], existing => (existing, 0)
  | n :: ns, existing =>
    if n ∈ existing then createNamed ns existing
    else ((createNamed ns (existing ++ [n])).1, (createNamed ns (existing ++ [n])).2 + 1)

/-- `seed_kafka_topics`: when the `confluent_kafka` library is missing
(the import fails), the function returns 0 without touching the broker;
otherwise each fixture topic is created if absent and the count of newly
created topics is returned. -/
def seed_kafka_topics (libAvailable : Bool) (existing : List String) : List String × Nat :=
  if libAvailable then createNamed (SEED_KAFKA_TOPICS.map (fun t => t.name)) existing
  else (existing, 0)

/-- `seed_minio_buckets`: when `boto3` is missing the import fails and the
function returns 0; otherwise one bucket `aumos-<tenant_id>` per tenant
is created if absent ("already exists/owned by you" is skipped). -/
def seed_minio_buckets (libAvailable : Bool) (existing : List String) : List String × Nat :=
  if libAvailable then
    createNamed (ALL_TENANT_IDS.map (fun tid => "aumos-" ++ tid)) existing
  else (existing, 0)

/-- The relational state seeded by the mandatory core. -/
structure Db where
  tenants : List TenantRecord
  users : List UserRecord
deriving DecidableEq, Repr

/-- The full state `seed_all` may touch. -/
structure World where
  db : Db
  kafkaTopics : List String
  minioBuckets : List String
deriving DecidableEq, Repr

/-- `seed_all`: always runs `seed_tenants` then `seed_users`; runs the
Kafka/MinIO paths only when a bootstrap-servers / endpoint argument is
supplied and truthy — the Python guards `if kafka_bootstrap_servers:` and
`if minio_endpoint:` skip both `None` (modelled by `none`) and the empty
string.  Returns the per-resource counts in insertion order, as the
Python dict does. -/
def seed_all (now : Nat) (w : World)
    (kafkaBootstrapServers : Option String) (minioEndpoint : Option String)
    (kafkaLibAvailable : Bool) (minioLibAvailable : Bool) :
    World × List (String × Nat) :=
  let t := seed_tenants now w.db.tenants
  let u := seed_users now w.db.users
  let k : List String × List (String × Nat) :=
    match kafkaBootstrapServers with
    | none => (w.kafkaTopics, [])
    | some s =>
      if s == "" then (w.kafkaTopics, [])
      else
        let r := seed_kafka_topics kafkaLibAvailable w.kafkaTopics
        (r.1, [("kafka_topics", r.2)])
  let m : List String × List (String × Nat) :=
    match minioEndpoint with
    | none => (w.minioBuckets, [])
    | some s =>
      if s == "" then (w.minioBuckets, [])
      else
        let r := seed_minio_buckets minioLibAvailable w.minioBuckets
        (r.1, [("minio_buckets", r.2)])
  ({ db := { tenants := t.1, users := u.1 }, kafkaTopics := k.1, minioBuckets := m.1 },
   [("tenants", t.2), ("users", u.2)] ++ k.2 ++ m.2)

/-- Look a count up in the result map returned by `seed_all`. -/
def lookupCount (results : List (String × Nat)) (k : String) : Option Nat :=
  match results with
  | [] => none
  | (k', v) :: rest => if k' == k then some v else lookupCount rest k

/-- The `tenants` table reflects the fixture tenant `t`: a row with its id
exists, and every row with its id carries its name and slug.  This is the
post-state of the tenant upsert. -/
def TenantUpserted (tbl : List TenantRecord) (t : SeedTenant) : Prop :=
  (tbl.any (fun r => r.id == t.id) = true) ∧
  ∀ r ∈ tbl, r.id = t.id → r.name = t.name ∧ r.slug = t.slug

/-- The `test_users` table reflects the fixture user `u` in the columns the
upsert maintains (`username`, `email`, `privilege_level`). -/
def UserUpserted (tbl : List UserRecord) (u : SeedUser) : Prop :=
  (tbl.any (fun r => r.id == u.id) = true) ∧
  ∀ r ∈ tbl, r.id = u.id →
    r.username = u.username ∧ r.email = u.email ∧ r.privilege_level = u.privilege_level

/-! ## Theorems -/

/-- C1: read isolation.  For tenants T1 ≠ T2 and any row owned by T2, a
SELECT whose only filtering is the `tenant_isolation` USING clause (no
caller-supplied WHERE clause at all), evaluated under context T1, never
includes that row in its result set. -/
theorem read_isolation (t1 t2 : String) (tbl : Table) (r : TenantRow)
    (hne : t1 ≠ t2) (hown : r.tenant_id = t2) :
    r ∉ selectVisible (some t1) tbl := by
  intro hmem
  have h := (List.mem_filter.mp hmem).2
  simp only [policyMatch, hown, beq_iff_eq] at h
  exact hne h.symm

/-- Witness for C1 at concrete tenants Alpha and Beta. -/
theorem read_isolation_witness :
    TENANT_ALPHA_ID ≠ TENANT_BETA_ID ∧
    (⟨"r1", TENANT_BETA_ID, "beta-only", 0⟩ : TenantRow) ∉
      selectVisible (some TENANT_ALPHA_ID) [⟨"r1", TENANT_BETA_ID, "beta-only", 0⟩] :=
  ⟨by decide,
   read_isolation TENANT_ALPHA_ID TENANT_BETA_ID
     [⟨"r1", TENANT_BETA_ID, "beta-only", 0⟩]
     ⟨"r1", TENANT_BETA_ID, "beta-only", 0⟩ (by decide) rfl⟩

/-- C2: write ownership.  An INSERT under context T1 declaring
`tenant_id = T2` with T1 ≠ T2 fails the WITH CHECK clause: it returns the
deterministic, catchable error `withCheckViolation`, and the table state
afterwards is unchanged (no new row owned by T2 exists). -/
theorem write_ownership (t1 t2 : String) (tbl : Table) (r : TenantRow)
    (hne : t1 ≠ t2) (hown : r.tenant_id = t2) :
    insertRow (some t1) tbl r = Except.error RlsError.withCheckViolation ∧
    tableAfterInsert (some t1) tbl r = tbl := by
  have hp : policyMatch (some t1) r = false := by
    simp only [policyMatch, hown, beq_eq_false_iff_ne, ne_eq]
    exact fun h => hne h.symm
  refine ⟨?_, ?_⟩
  · simp [insertRow, hp]
  · simp [tableAfterInsert, insertRow, hp]

/-- Witness for C2: inserting a Beta-owned row under Alpha context. -/
theorem write_ownership_witness :
    TENANT_ALPHA_ID ≠ TENANT_BETA_ID ∧
    insertRow (some TENANT_ALPHA_ID) []
        ⟨"r2", TENANT_BETA_ID, "injection-attempt", 0⟩
      = Except.error RlsError.withCheckViolation ∧
    tableAfterInsert (some TENANT_ALPHA_ID) []
        ⟨"r2", TENANT_BETA_ID, "injection-attempt", 0⟩ = [] := by
  have h := write_ownership TENANT_ALPHA_ID TENANT_BETA_ID []
    ⟨"r2", TENANT_BETA_ID, "injection-attempt", 0⟩ (by decide) rfl
  exact ⟨by decide, h.1, h.2⟩

/-- C6: tenant context function semantics.  `set_tenant_context` is total
on all strings (empty and unknown tenant ids included, never an error);
after calling it, `current_setting` inside the same transaction reads
back exactly the string that was set, policy evaluation uses exactly that
context, and because `set_config(..., TRUE)` is transaction-local the
session state after the transaction ends is exactly what it was before. -/
theorem tenant_context_semantics (s : SessionState) (t : TxnState) (v : String) (tbl : Table) :
    current_setting (set_tenant_context t v) = some v ∧
    selectVisible (current_setting (set_tenant_context t v)) tbl
      = selectVisible (some v) tbl ∧
    endTxn (set_tenant_context (beginTxn s) v) = s :=
  ⟨rfl, rfl, rfl⟩

/-- C10: the session-scoped conftest fixtures return exactly the same
UUID strings as the seeding module constants, and `ALL_TENANT_IDS` lists
precisely these three ids in order. -/
theorem fixture_constant_agreement :
    tenant_alpha_id = TENANT_ALPHA_ID ∧
    tenant_beta_id = TENANT_BETA_ID ∧
    tenant_gamma_id = TENANT_GAMMA_ID ∧
    ALL_TENANT_IDS = [tenant_alpha_id, tenant_beta_id, tenant_gamma_id] :=
  ⟨rfl, rfl, rfl, rfl⟩

/-- C3 counterexample: the claim quantifies over every row regardless of
its owner, but under the empty-string context the policy clause
`tenant_id = current_setting(..)` compares the empty string with the
empty string, which is true, for a row
whose `tenant_id` is the empty string (legal under `TEXT NOT NULL`), so
the SELECT matches that row and the DELETE targeting it reports 1 row
affected, not zero. -/
theorem fail_closed_counterexample :
    (⟨"r0", "", "anon", 0⟩ : TenantRow) ∈
      selectVisible (some "") [⟨"r0", "", "anon", 0⟩] ∧
    (deleteById (some "") [⟨"r0", "", "anon", 0⟩] "r0").2 = 1 := by
  constructor
  · simp [selectVisible, policyMatch]
  · rfl

/-- C3 (amended): with the tenant context unset, SELECT and DELETE match
zero rows for every row regardless of owner; with the context set to the
empty string, they match zero rows for every row whose `tenant_id` is
non-empty.  Denial is by omission — both operations are total and the
untouched table is returned with a 0 count, never an exception. -/
theorem fail_closed_default (tbl : Table) (rowId : String) (r : TenantRow) :
    selectVisible none tbl = [] ∧
    deleteById none tbl rowId = (tbl, 0) ∧
    (r.tenant_id ≠ "" → r ∉ selectVisible (some "") tbl) ∧
    ((∀ r' ∈ tbl, r'.tenant_id ≠ "") → deleteById (some "") tbl rowId = (tbl, 0)) := by
  refine ⟨?_, ?_, ?_, ?_⟩
  · simp [selectVisible, policyMatch]
  · simp [deleteById, policyMatch]
  · intro hne hmem
    have h := (List.mem_filter.mp hmem).2
    simp only [policyMatch, beq_iff_eq] at h
    exact hne h
  · intro hall
    have hfalse : ∀ r' ∈ tbl, (policyMatch (some "") r' && r'.id == rowId) = false := by
      intro r' hr'
      have : (r'.tenant_id == "") = false := beq_eq_false_iff_ne.mpr (hall r' hr')
      simp [policyMatch, this]
    unfold deleteById
    simp only [Prod.mk.injEq]
    constructor
    · apply List.filter_eq_self.mpr
      intro a ha
      simp [hfalse a ha]
    · simp only [List.length_eq_zero]
      apply List.filter_eq_nil_iff.mpr
      intro a ha
      simp [hfalse a ha]

/-- Witness for C3 (amended) at a concrete Alpha-owned row. -/
theorem fail_closed_default_witness :
    ((⟨"rA", TENANT_ALPHA_ID, "no-context-test", 0⟩ : TenantRow).tenant_id ≠ "" ∧
      (∀ r' ∈ [(⟨"rA", TENANT_ALPHA_ID, "no-context-test", 0⟩ : TenantRow)],
        r'.tenant_id ≠ "")) ∧
    selectVisible none [(⟨"rA", TENANT_ALPHA_ID, "no-context-test", 0⟩ : TenantRow)] = [] ∧
    deleteById none [(⟨"rA", TENANT_ALPHA_ID, "no-context-test", 0⟩ : TenantRow)] "rA"
      = ([⟨"rA", TENANT_ALPHA_ID, "no-context-test", 0⟩], 0) ∧
    (⟨"rA", TENANT_ALPHA_ID, "no-context-test", 0⟩ : TenantRow) ∉
      selectVisible (some "") [(⟨"rA", TENANT_ALPHA_ID, "no-context-test", 0⟩ : TenantRow)] ∧
    deleteById (some "") [(⟨"rA", TENANT_ALPHA_ID, "no-context-test", 0⟩ : TenantRow)] "rA"
      = ([⟨"rA", TENANT_ALPHA_ID, "no-context-test", 0⟩], 0) := by
  have h := fail_closed_default [(⟨"rA", TENANT_ALPHA_ID, "no-context-test", 0⟩ : TenantRow)]
    "rA" ⟨"rA", TENANT_ALPHA_ID, "no-context-test", 0⟩
  exact ⟨⟨by decide, by decide⟩, h.1, h.2.1, h.2.2.1 (by decide), h.2.2.2 (by decide)⟩

/-- C4: delete isolation and frame.  Under context T1, a DELETE targeting
the id of a row owned by T2 ≠ T1 (ids being unique, as the primary key
guarantees) removes nothing: it reports 0 rows affected without raising
(the operation is total), the whole table — every other tenant included —
is exactly as before, and the targeted row is still visible when queried
under context T2. -/
theorem delete_isolation (t1 t2 : String) (tbl : Table) (r : TenantRow)
    (hne : t1 ≠ t2) (hmem : r ∈ tbl) (hown : r.tenant_id = t2)
    (hkey : ∀ r' ∈ tbl, r'.id = r.id → r' = r) :
    deleteById (some t1) tbl r.id = (tbl, 0) ∧
    r ∈ selectVisible (some t2) (deleteById (some t1) tbl r.id).1 := by
  have hfalse : ∀ r' ∈ tbl, (policyMatch (some t1) r' && r'.id == r.id) = false := by
    intro r' hr'
    by_cases hid : r'.id = r.id
    · have hrr : r' = r := hkey r' hr' hid
      subst hrr
      have : (r'.tenant_id == t1) = false := by
        rw [hown]
        exact beq_eq_false_iff_ne.mpr fun h => hne h.symm
      simp [policyMatch, this]
    · have : (r'.id == r.id) = false := beq_eq_false_iff_ne.mpr hid
      simp [this]
  have hdel : deleteById (some t1) tbl r.id = (tbl, 0) := by
    unfold deleteById
    simp only [Prod.mk.injEq]
    constructor
    · apply List.filter_eq_self.mpr
      intro a ha
      simp [hfalse a ha]
    · simp only [List.length_eq_zero]
      apply List.filter_eq_nil_iff.mpr
      intro a ha
      simp [hfalse a ha]
  refine ⟨hdel, ?_⟩
  rw [hdel]
  apply List.mem_filter.mpr
  exact ⟨hmem, by simp [policyMatch, hown]⟩

/-- Witness for C4: Alpha context cannot delete the Beta-owned row. -/
theorem delete_isolation_witness :
    (TENANT_ALPHA_ID ≠ TENANT_BETA_ID ∧
      (⟨"r3", TENANT_BETA_ID, "beta-protected", 0⟩ : TenantRow) ∈
        [(⟨"r3", TENANT_BETA_ID, "beta-protected", 0⟩ : TenantRow)]) ∧
    deleteById (some TENANT_ALPHA_ID)
        [(⟨"r3", TENANT_BETA_ID, "beta-protected", 0⟩ : TenantRow)] "r3"
      = ([⟨"r3", TENANT_BETA_ID, "beta-protected", 0⟩], 0) ∧
    (⟨"r3", TENANT_BETA_ID, "beta-protected", 0⟩ : TenantRow) ∈
      selectVisible (some TENANT_BETA_ID)
        (deleteById (some TENANT_ALPHA_ID)
          [(⟨"r3", TENANT_BETA_ID, "beta-protected", 0⟩ : TenantRow)] "r3").1 := by
  have h := delete_isolation TENANT_ALPHA_ID TENANT_BETA_ID
    [(⟨"r3", TENANT_BETA_ID, "beta-protected", 0⟩ : TenantRow)]
    ⟨"r3", TENANT_BETA_ID, "beta-protected", 0⟩
    (by decide) (by decide) rfl (by decide)
  exact ⟨⟨by decide, by decide⟩, h.1, h.2⟩

/-- A map that fixes every element of a list is the identity on it. -/
theorem list_map_fix {α : Type} (l : List α) (f : α → α) (h : ∀ a ∈ l, f a = a) :
    l.map f = l := by
  induction l with
  | nil => rfl
  | cons x xs ih =>
    simp only [List.map_cons, h x (List.mem_cons_self x xs)]
    rw [ih fun a ha => h a (List.mem_cons_of_mem x ha)]

/-- After upserting fixture tenant `t`, the table reflects `t`. -/
theorem tenantUpserted_upsert (now : Nat) (tbl : List TenantRecord) (t : SeedTenant) :
    TenantUpserted (upsertTenant now tbl t) t := by
  unfold upsertTenant
  split
  case isTrue h =>
    obtain ⟨r0, hr0, hb⟩ := List.any_eq_true.mp h
    constructor
    · apply List.any_eq_true.mpr
      refine ⟨_, List.mem_map_of_mem _ hr0, ?_⟩
      simp only [hb, if_true]
    · intro r hr hid
      obtain ⟨r1, hr1, hEq⟩ := List.mem_map.mp hr
      by_cases hc : (r1.id == t.id) = true
      · rw [if_pos hc] at hEq
        rw [← hEq]
        exact ⟨rfl, rfl⟩
      · rw [if_neg hc] at hEq
        rw [← hEq] at hid
        exact absurd (beq_iff_eq.mpr hid) hc
  case isFalse h =>
    constructor
    · simp [List.any_append]
    · intro r hr hid
      rcases List.mem_append.mp hr with hm | hm
      · exfalso
        exact h (List.any_eq_true.mpr ⟨r, hm, beq_iff_eq.mpr hid⟩)
      · rw [List.mem_singleton.mp hm]
        exact ⟨rfl, rfl⟩

/-- Re-upserting a fixture tenant the table already reflects changes
nothing. -/
theorem tenantUpserted_id (now : Nat) (tbl : List TenantRecord) (t : SeedTenant)
    (h : TenantUpserted tbl t) : upsertTenant now tbl t = tbl := by
  unfold upsertTenant
  rw [if_pos h.1]
  apply list_map_fix
  intro a ha
  by_cases hc : (a.id == t.id) = true
  · rw [if_pos hc]
    obtain ⟨hn, hs⟩ := h.2 a ha (beq_iff_eq.mp hc)
    cases a
    simp_all
  · rw [if_neg hc]

/-- Upserting a fixture tenant with a different id preserves the reflected
state of `t`. -/
theorem tenantUpserted_frame (now : Nat) (tbl : List TenantRecord) (t u : SeedTenant)
    (hne : u.id ≠ t.id) (h : TenantUpserted tbl t) :
    TenantUpserted (upsertTenant now tbl u) t := by
  unfold upsertTenant
  split
  case isTrue hu =>
    constructor
    · obtain ⟨r0, hr0, hb⟩ := List.any_eq_true.mp h.1
      apply List.any_eq_true.mpr
      refine ⟨_, List.mem_map_of_mem _ hr0, ?_⟩
      by_cases hc : (r0.id == u.id) = true
      · simp only [hc, if_true]
        exact hb
      · simp only [hc, if_false, Bool.false_eq_true, reduceIte]
        exact hb
    · intro r hr hid
      obtain ⟨r1, hr1, hEq⟩ := List.mem_map.mp hr
      by_cases hc : (r1.id == u.id) = true
      · rw [if_pos hc] at hEq
        have hid1 : r1.id = t.id := by rw [← hEq] at hid; exact hid
        exact absurd ((eq_of_beq hc).symm.trans hid1) hne
      · rw [if_neg hc] at hEq
        rw [← hEq]
        exact h.2 r1 hr1 (by rw [← hEq] at hid; exact hid)
  case isFalse hu =>
    constructor
    · rw [List.any_append]
      simp [h.1]
    · intro r hr hid
      rcases List.mem_append.mp hr with hm | hm
      · exact h.2 r hm hid
      · rw [List.mem_singleton.mp hm] at hid
        exact absurd hid hne

/-- Folding tenant upserts whose ids all differ from the id of `t`
preserves the reflected state of `t`. -/
theorem tenantUpserted_fold_frame (now : Nat) (ts : List SeedTenant) (t : SeedTenant) :
    ∀ (tbl : List TenantRecord), (∀ u ∈ ts, u.id ≠ t.id) → TenantUpserted tbl t →
      TenantUpserted (ts.foldl (upsertTenant now) tbl) t := by
  induction ts with
  | nil => intro tbl _ h; exact h
  | cons u us ih =>
    intro tbl hall h
    simp only [List.foldl_cons]
    exact ih _ (fun v hv => hall v (List.mem_cons_of_mem u hv))
      (tenantUpserted_frame now tbl t u (hall u (List.mem_cons_self u us)) h)

/-- After folding the upserts of a list of fixture tenants with pairwise
distinct ids, the table reflects every one of them. -/
theorem tenantUpserted_fold_all (now : Nat) (ts : List SeedTenant)
    (hpw : ts.Pairwise (fun a b => a.id ≠ b.id)) :
    ∀ (tbl : List TenantRecord) (t : SeedTenant), t ∈ ts →
      TenantUpserted (ts.foldl (upsertTenant now) tbl) t := by
  induction ts with
  | nil => intro tbl t ht; cases ht
  | cons u us ih =>
    intro tbl t ht
    simp only [List.foldl_cons]
    rcases List.mem_cons.mp ht with rfl | hm
    · exact tenantUpserted_fold_frame now us t _
        (fun v hv => Ne.symm ((List.pairwise_cons.mp hpw).1 v hv))
        (tenantUpserted_upsert now tbl t)
    · exact ih (List.pairwise_cons.mp hpw).2 _ t hm

/-- Folding tenant upserts over a table that already reflects all of them
is the identity. -/
theorem tenant_fold_id (now : Nat) (ts : List SeedTenant) :
    ∀ (tbl : List TenantRecord), (∀ t ∈ ts, TenantUpserted tbl t) →
      ts.foldl (upsertTenant now) tbl = tbl := by
  induction ts with
  | nil => intro tbl _; rfl
  | cons u us ih =>
    intro tbl h
    simp only [List.foldl_cons]
    rw [tenantUpserted_id now tbl u (h u (List.mem_cons_self u us))]
    exact ih tbl fun t ht => h t (List.mem_cons_of_mem u ht)

/-- Running `seed_tenants` a second time leaves the table as the first run
left it. -/
theorem seed_tenants_idem (now1 now2 : Nat) (tbl : List TenantRecord) :
    (seed_tenants now2 (seed_tenants now1 tbl).1).1 = (seed_tenants now1 tbl).1 := by
  unfold seed_tenants
  apply tenant_fold_id
  intro t ht
  exact tenantUpserted_fold_all now1 SEED_TENANTS (by decide) tbl t ht

/-- After upserting fixture user `u`, the table reflects `u`. -/
theorem userUpserted_upsert (now : Nat) (tbl : List UserRecord) (u : SeedUser) :
    UserUpserted (upsertUser now tbl u) u := by
  unfold upsertUser
  split
  case isTrue h =>
    obtain ⟨r0, hr0, hb⟩ := List.any_eq_true.mp h
    constructor
    · apply List.any_eq_true.mpr
      refine ⟨_, List.mem_map_of_mem _ hr0, ?_⟩
      simp only [hb, if_true]
    · intro r hr hid
      obtain ⟨r1, hr1, hEq⟩ := List.mem_map.mp hr
      by_cases hc : (r1.id == u.id) = true
      · rw [if_pos hc] at hEq
        rw [← hEq]
        exact ⟨rfl, rfl, rfl⟩
      · rw [if_neg hc] at hEq
        rw [← hEq] at hid
        exact absurd (beq_iff_eq.mpr hid) hc
  case isFalse h =>
    constructor
    · simp [List.any_append]
    · intro r hr hid
      rcases List.mem_append.mp hr with hm | hm
      · exfalso
        exact h (List.any_eq_true.mpr ⟨r, hm, beq_iff_eq.mpr hid⟩)
      · rw [List.mem_singleton.mp hm]
        exact ⟨rfl, rfl, rfl⟩

/-- Re-upserting a fixture user the table already reflects changes
nothing. -/
theorem userUpserted_id (now : Nat) (tbl : List UserRecord) (u : SeedUser)
    (h : UserUpserted tbl u) : upsertUser now tbl u = tbl := by
  unfold upsertUser
  rw [if_pos h.1]
  apply list_map_fix
  intro a ha
  by_cases hc : (a.id == u.id) = true
  · rw [if_pos hc]
    obtain ⟨hn, he, hp⟩ := h.2 a ha (beq_iff_eq.mp hc)
    cases a
    simp_all
  · rw [if_neg hc]

/-- Upserting a fixture user with a different id preserves the reflected
state of `u`. -/
theorem userUpserted_frame (now : Nat) (tbl : List UserRecord) (u v : SeedUser)
    (hne : v.id ≠ u.id) (h : UserUpserted tbl u) :
    UserUpserted (upsertUser now tbl v) u := by
  unfold upsertUser
  split
  case isTrue hv =>
    constructor
    · obtain ⟨r0, hr0, hb⟩ := List.any_eq_true.mp h.1
      apply List.any_eq_true.mpr
      refine ⟨_, List.mem_map_of_mem _ hr0, ?_⟩
      by_cases hc : (r0.id == v.id) = true
      · simp only [hc, if_true]
        exact hb
      · simp only [hc, if_false, Bool.false_eq_true, reduceIte]
        exact hb
    · intro r hr hid
      obtain ⟨r1, hr1, hEq⟩ := List.mem_map.mp hr
      by_cases hc : (r1.id == v.id) = true
      · rw [if_pos hc] at hEq
        have hid1 : r1.id = u.id := by rw [← hEq] at hid; exact hid
        exact absurd ((eq_of_beq hc).symm.trans hid1) hne
      · rw [if_neg hc] at hEq
        rw [← hEq]
        exact h.2 r1 hr1 (by rw [← hEq] at hid; exact hid)
  case isFalse hv =>
    constructor
    · rw [List.any_append]
      simp [h.1]
    · intro r hr hid
      rcases List.mem_append.mp hr with hm | hm
      · exact h.2 r hm hid
      · rw [List.mem_singleton.mp hm] at hid
        exact absurd hid hne

/-- Folding user upserts whose ids all differ from the id of `u` preserves
the reflected state of `u`. -/
theorem userUpserted_fold_frame (now : Nat) (us : List SeedUser) (u : SeedUser) :
    ∀ (tbl : List UserRecord), (∀ v ∈ us, v.id ≠ u.id) → UserUpserted tbl u →
      UserUpserted (us.foldl (upsertUser now) tbl) u := by
  induction us with
  | nil => intro tbl _ h; exact h
  | cons v vs ih =>
    intro tbl hall h
    simp only [List.foldl_cons]
    exact ih _ (fun w hw => hall w (List.mem_cons_of_mem v hw))
      (userUpserted_frame now tbl u v (hall v (List.mem_cons_self v vs)) h)

/-- After folding the upserts of a list of fixture users with pairwise
distinct ids, the table reflects every one of them. -/
theorem userUpserted_fold_all (now : Nat) (us : List SeedUser)
    (hpw : us.Pairwise (fun a b => a.id ≠ b.id)) :
    ∀ (tbl : List UserRecord) (u : SeedUser), u ∈ us →
      UserUpserted (us.foldl (upsertUser now) tbl) u := by
  induction us with
  | nil => intro tbl u hu; cases hu
  | cons v vs ih =>
    intro tbl u hu
    simp only [List.foldl_cons]
    rcases List.mem_cons.mp hu with rfl | hm
    · exact userUpserted_fold_frame now vs u _
        (fun w hw => Ne.symm ((List.pairwise_cons.mp hpw).1 w hw))
        (userUpserted_upsert now tbl u)
    · exact ih (List.pairwise_cons.mp hpw).2 _ u hm

/-- Folding user upserts over a table that already reflects all of them is
the identity. -/
theorem user_fold_id (now : Nat) (us : List SeedUser) :
    ∀ (tbl : List UserRecord), (∀ u ∈ us, UserUpserted tbl u) →
      us.foldl (upsertUser now) tbl = tbl := by
  induction us with
  | nil => intro tbl _; rfl
  | cons v vs ih =>
    intro tbl h
    simp only [List.foldl_cons]
    rw [userUpserted_id now tbl v (h v (List.mem_cons_self v vs))]
    exact ih tbl fun u hu => h u (List.mem_cons_of_mem v hu)

/-- Running `seed_users` a second time leaves the table as the first run
left it. -/
theorem seed_users_idem (now1 now2 : Nat) (tbl : List UserRecord) :
    (seed_users now2 (seed_users now1 tbl).1).1 = (seed_users now1 tbl).1 := by
  have hpw : SEED_USERS.Pairwise (fun a b => a.id ≠ b.id) := by
    simp [SEED_USERS, List.pairwise_cons, List.forall_mem_cons]
  simp only [seed_users]
  exact user_fold_id now2 SEED_USERS _
    fun u hu => userUpserted_fold_all now1 SEED_USERS hpw tbl u hu

/-- Creating named resources never loses an existing name. -/
theorem createNamed_mem_preserve (ns : List String) :
    ∀ (e : List String) (x : String), x ∈ e → x ∈ (createNamed ns e).1 := by
  induction ns with
  | nil => intro e x hx; exact hx
  | cons n ns ih =>
    intro e x hx
    by_cases h : n ∈ e
    · rw [createNamed, if_pos h]
      exact ih e x hx
    · rw [createNamed, if_neg h]
      exact ih (e ++ [n]) x (List.mem_append_left [n] hx)

/-- After creating the named resources, every requested name exists. -/
theorem createNamed_mem_names (ns : List String) :
    ∀ (e : List String) (x : String), x ∈ ns → x ∈ (createNamed ns e).1 := by
  induction ns with
  | nil => intro e x hx; cases hx
  | cons n ns ih =>
    intro e x hx
    rcases List.mem_cons.mp hx with rfl | hm
    · by_cases h : x ∈ e
      · rw [createNamed, if_pos h]
        exact createNamed_mem_preserve ns e x h
      · rw [createNamed, if_neg h]
        exact createNamed_mem_preserve ns (e ++ [x]) x (List.mem_append_right e (List.mem_singleton_self x))
    · by_cases h : n ∈ e
      · rw [createNamed, if_pos h]
        exact ih e x hm
      · rw [createNamed, if_neg h]
        exact ih (e ++ [n]) x hm

/-- When every requested name already exists, nothing is created: the
count is 0 and the existing names are unchanged. -/
theorem createNamed_all_exist (ns : List String) :
    ∀ (e : List String), (∀ n ∈ ns, n ∈ e) → createNamed ns e = (e, 0) := by
  induction ns with
  | nil => intro e _; rfl
  | cons n ns ih =>
    intro e h
    rw [createNamed, if_pos (h n (List.mem_cons_self n ns))]
    exact ih e fun m hm => h m (List.mem_cons_of_mem n hm)

/-- Re-running Kafka topic seeding against a broker that already holds all
fixture topics creates 0 topics. -/
theorem seed_kafka_topics_rerun_zero (e : List String) :
    seed_kafka_topics true (seed_kafka_topics true e).1 = ((seed_kafka_topics true e).1, 0) := by
  unfold seed_kafka_topics
  rw [if_pos rfl, if_pos rfl]
  exact createNamed_all_exist _ _
    fun n hn => createNamed_mem_names _ e n hn

/-- C5: seed idempotence.  Running the full seed operation a second time
(at any later timestamp) on a state already seeded once leaves the state
exactly as the first run left it — same rows, same identifiers — for
`seed_all` (with the optional targets skipped, as the conftest path runs
it) and for `seed_tenants` and `seed_users` individually; and the state
seeded from an empty database holds exactly the 3 fixture tenant rows and
15 fixture user rows, with distinct ids (not 6 or 30 rows). -/
theorem seed_idempotent (now1 now2 : Nat) (w : World) (ka1 ma1 ka2 ma2 : Bool) :
    (seed_all now2 (seed_all now1 w none none ka1 ma1).1 none none ka2 ma2).1
      = (seed_all now1 w none none ka1 ma1).1 ∧
    (seed_tenants now2 (seed_tenants now1 w.db.tenants).1).1
      = (seed_tenants now1 w.db.tenants).1 ∧
    (seed_users now2 (seed_users now1 w.db.users).1).1
      = (seed_users now1 w.db.users).1 ∧
    ((seed_tenants now1 []).1).map (fun r => r.id) = ALL_TENANT_IDS ∧
    (seed_tenants now1 []).1.length = 3 ∧
    ((seed_tenants now1 []).1.map (fun r => r.id)).Nodup ∧
    ((seed_users now1 []).1).map (fun r => r.id) = SEED_USERS.map (fun u => u.id) ∧
    (seed_users now1 []).1.length = 15 ∧
    ((seed_users now1 []).1.map (fun r => r.id)).Nodup := by
  refine ⟨?_, seed_tenants_idem now1 now2 w.db.tenants, seed_users_idem now1 now2 w.db.users,
    ?_, ?_, ?_, ?_, ?_, ?_⟩
  · simp [seed_all, World.mk.injEq, Db.mk.injEq, seed_tenants_idem, seed_users_idem]
  · simp [seed_tenants, SEED_TENANTS, upsertTenant, ALL_TENANT_IDS,
      TENANT_ALPHA_ID, TENANT_BETA_ID, TENANT_GAMMA_ID]
  · simp [seed_tenants, SEED_TENANTS, upsertTenant,
      TENANT_ALPHA_ID, TENANT_BETA_ID, TENANT_GAMMA_ID]
  · simp [seed_tenants, SEED_TENANTS, upsertTenant, List.nodup_cons,
      TENANT_ALPHA_ID, TENANT_BETA_ID, TENANT_GAMMA_ID]
  · simp [seed_users, SEED_USERS, upsertUser,
      TENANT_ALPHA_ID, TENANT_BETA_ID, TENANT_GAMMA_ID]
  · simp [seed_users, SEED_USERS, upsertUser,
      TENANT_ALPHA_ID, TENANT_BETA_ID, TENANT_GAMMA_ID]
  · simp [seed_users, SEED_USERS, upsertUser, List.nodup_cons,
      TENANT_ALPHA_ID, TENANT_BETA_ID, TENANT_GAMMA_ID]

/-- C7: degraded optional dependency.  With the optional client library
unavailable, `seed_kafka_topics` and `seed_minio_buckets` return a count
of 0 without touching anything and without raising, and `seed_all` still
performs the mandatory tenant and user seeding and returns normally; when
a non-empty (truthy) bootstrap-servers / endpoint argument was supplied,
the corresponding resource count is reported as 0. -/
theorem degraded_optional_dependency (now : Nat) (w : World) (bk me : Option String)
    (e b : List String) (s1 s2 : String) (hs1 : s1 ≠ "") (hs2 : s2 ≠ "") :
    seed_kafka_topics false e = (e, 0) ∧
    seed_minio_buckets false b = (b, 0) ∧
    lookupCount (seed_all now w bk me false false).2 "tenants" = some 3 ∧
    lookupCount (seed_all now w bk me false false).2 "users" = some 15 ∧
    (seed_all now w bk me false false).1.db.tenants = (seed_tenants now w.db.tenants).1 ∧
    (seed_all now w bk me false false).1.db.users = (seed_users now w.db.users).1 ∧
    lookupCount (seed_all now w (some s1) (some s2) false false).2 "kafka_topics" = some 0 ∧
    lookupCount (seed_all now w (some s1) (some s2) false false).2 "minio_buckets" = some 0 ∧
    (seed_all now w (some s1) (some s2) false false).1.kafkaTopics = w.kafkaTopics ∧
    (seed_all now w (some s1) (some s2) false false).1.minioBuckets = w.minioBuckets := by
  have h1 : (s1 == "") = false := beq_eq_false_iff_ne.mpr hs1
  have h2 : (s2 == "") = false := beq_eq_false_iff_ne.mpr hs2
  refine ⟨rfl, rfl, ?_, ?_, ?_, ?_, ?_, ?_, ?_, ?_⟩ <;>
    cases bk <;> cases me <;>
      simp [seed_all, lookupCount, seed_tenants, seed_users, seed_kafka_topics,
        seed_minio_buckets, SEED_TENANTS, SEED_USERS, h1, h2]

/-- Witness for C7 at concrete non-empty endpoints and an empty world. -/
theorem degraded_optional_dependency_witness :
    (("localhost:9092" : String) ≠ "" ∧ ("http://localhost:9000" : String) ≠ "") ∧
    (seed_kafka_topics false [] = ([], 0) ∧
     seed_minio_buckets false [] = ([], 0) ∧
     lookupCount (seed_all 0 (World.mk (Db.mk [] []) [] []) none none false false).2
       "tenants" = some 3 ∧
     lookupCount (seed_all 0 (World.mk (Db.mk [] []) [] []) none none false false).2
       "users" = some 15 ∧
     (seed_all 0 (World.mk (Db.mk [] []) [] []) none none false false).1.db.tenants
       = (seed_tenants 0 (World.mk (Db.mk [] []) [] []).db.tenants).1 ∧
     (seed_all 0 (World.mk (Db.mk [] []) [] []) none none false false).1.db.users
       = (seed_users 0 (World.mk (Db.mk [] []) [] []).db.users).1 ∧
     lookupCount (seed_all 0 (World.mk (Db.mk [] []) [] [])
         (some "localhost:9092") (some "http://localhost:9000") false false).2
       "kafka_topics" = some 0 ∧
     lookupCount (seed_all 0 (World.mk (Db.mk [] []) [] [])
         (some "localhost:9092") (some "http://localhost:9000") false false).2
       "minio_buckets" = some 0 ∧
     (seed_all 0 (World.mk (Db.mk [] []) [] [])
         (some "localhost:9092") (some "http://localhost:9000") false false).1.kafkaTopics
       = (World.mk (Db.mk [] []) [] []).kafkaTopics ∧
     (seed_all 0 (World.mk (Db.mk [] []) [] [])
         (some "localhost:9092") (some "http://localhost:9000") false false).1.minioBuckets
       = (World.mk (Db.mk [] []) [] []).minioBuckets) :=
  ⟨⟨by decide, by decide⟩,
   degraded_optional_dependency 0 (World.mk (Db.mk [] []) [] []) none none [] []
     "localhost:9092" "http://localhost:9000" (by decide) (by decide)⟩

/-- C8: seed fixture shape invariant.  Exactly 3 tenants with pairwise
distinct ids and slugs; exactly 15 users whose privilege levels within
each tenant are exactly 1..5, every privilege level inside the closed
range [1,5] demanded by the CHECK constraint on `test_users`, and all 15
emails and all 15 user ids pairwise distinct. -/
theorem seed_fixture_shape :
    SEED_TENANTS.length = 3 ∧
    (SEED_TENANTS.map (fun t => t.id)).Nodup ∧
    (SEED_TENANTS.map (fun t => t.slug)).Nodup ∧
    SEED_USERS.length = 15 ∧
    ((SEED_USERS.filter (fun u => u.tenant_id == TENANT_ALPHA_ID)).map
      (fun u => u.privilege_level)) = [1, 2, 3, 4, 5] ∧
    ((SEED_USERS.filter (fun u => u.tenant_id == TENANT_BETA_ID)).map
      (fun u => u.privilege_level)) = [1, 2, 3, 4, 5] ∧
    ((SEED_USERS.filter (fun u => u.tenant_id == TENANT_GAMMA_ID)).map
      (fun u => u.privilege_level)) = [1, 2, 3, 4, 5] ∧
    (SEED_USERS.all (fun u => 1 ≤ u.privilege_level && u.privilege_level ≤ 5)) = true ∧
    (SEED_USERS.map (fun u => u.email)).Nodup ∧
    (SEED_USERS.map (fun u => u.id)).Nodup := by
  refine ⟨rfl, ?_, ?_, rfl, ?_, ?_, ?_, rfl, ?_, ?_⟩ <;>
    simp [SEED_TENANTS, SEED_USERS, List.nodup_cons,
      TENANT_ALPHA_ID, TENANT_BETA_ID, TENANT_GAMMA_ID,
      TENANT_ALPHA_SLUG, TENANT_BETA_SLUG, TENANT_GAMMA_SLUG]

/-- C9: returned seed counts.  On every invocation — repeated ones on an
already seeded database included — `seed_tenants` returns 3 and
`seed_users` returns 15 (the fixture-list lengths, counting upserts), so
the `seed_all` result maps "tenants" to 3 and "users" to 15 on both of
two consecutive runs; `seed_kafka_topics`, by contrast, counts only newly
created topics and returns 0 when all topics already exist. -/
theorem seed_counts (now now2 : Nat) (ttbl : List TenantRecord) (utbl : List UserRecord)
    (w : World) (bk me : Option String) (ka ma ka2 ma2 : Bool) (e : List String) :
    (seed_tenants now ttbl).2 = 3 ∧
    (seed_users now utbl).2 = 15 ∧
    lookupCount (seed_all now w bk me ka ma).2 "tenants" = some 3 ∧
    lookupCount (seed_all now w bk me ka ma).2 "users" = some 15 ∧
    lookupCount (seed_all now2 (seed_all now w bk me ka ma).1 bk me ka2 ma2).2 "tenants"
      = some 3 ∧
    lookupCount (seed_all now2 (seed_all now w bk me ka ma).1 bk me ka2 ma2).2 "users"
      = some 15 ∧
    (seed_kafka_topics true (seed_kafka_topics true e).1).2 = 0 := by
  refine ⟨rfl, rfl, ?_, ?_, ?_, ?_, ?_⟩
  · cases bk <;> cases me <;>
      simp [seed_all, lookupCount, seed_tenants, seed_users, SEED_TENANTS, SEED_USERS]
  · cases bk <;> cases me <;>
      simp [seed_all, lookupCount, seed_tenants, seed_users, SEED_TENANTS, SEED_USERS]
  · cases bk <;> cases me <;>
      simp [seed_all, lookupCount, seed_tenants, seed_users, SEED_TENANTS, SEED_USERS]
  · cases bk <;> cases me <;>
      simp [seed_all, lookupCount, seed_tenants, seed_users, SEED_TENANTS, SEED_USERS]
  · rw [seed_kafka_topics_rerun_zero]

end AumOS
